import Mathlib

/-!
Verification of the `headlessui-float` Float component
(`src/packages/headlessui-float-react/src/float.tsx`).

The development shallowly embeds the parts of `float.tsx` the claims are
about:

* the middleware-pipeline construction effect (lines 116-177),
* the show/hide lifecycle effect together with `startAutoUpdate` /
  `clearAutoUpdate` and the two module-level registries
  `autoUpdateCleanerMap` / `showStateMap` (lines 34-35, 179-226),
* the transition hook wiring `transitionProps` (lines 256-270),
* the throttled recomputation callback `updateFloating` (lines 111-114,
  185-192),
* the `Arrow` sub-component's style computation (lines 341-354) and
  `useArrowContext` (lines 47-55).

JavaScript numbers appearing in the modelled fragments (padding values,
arrow coordinates, the stand-off offset) are modelled as `Int`; the claims
under study only move these values around, they never do arithmetic beyond
negation.  Exceptions thrown by the code are modelled with `Except`.
-/

namespace HeadlessuiFloat

/-! ### Configuration value domains

Each optional prop of `FloatProps` (float.tsx lines 57-88) is a TypeScript
union type; we model each union with one constructor per `typeof`-class the
code distinguishes.  `undef` is the absent prop (`undefined`). -/

/-- `offset?: OffsetOptions` — a number, an options object, or a derivable
function (float.tsx line 62; the code tests `typeof` for `number`,
`object`, `function` at lines 118-121). -/
inductive OffsetProp where
  | undef
  | num (n : Int)
  | obj
  | func
deriving DecidableEq, Repr

/-- `flip?: boolean | number | Partial<...>` (float.tsx line 64). -/
inductive FlipProp where
  | undef
  | bool (b : Bool)
  | num (n : Int)
  | obj
deriving DecidableEq, Repr

/-- `shift?: boolean | number | Partial<...>` (float.tsx line 63). -/
inductive ShiftProp where
  | undef
  | bool (b : Bool)
  | num (n : Int)
  | obj
deriving DecidableEq, Repr

/-- `autoPlacement?: boolean | Partial<...>` (float.tsx line 66). -/
inductive AutoPlacementProp where
  | undef
  | bool (b : Bool)
  | obj
deriving DecidableEq, Repr

/-- `arrow?: boolean | number` (float.tsx line 65). -/
inductive ArrowProp where
  | undef
  | bool (b : Bool)
  | num (n : Int)
deriving DecidableEq, Repr

/-- `hide?: boolean | Partial<...>` (float.tsx line 67). -/
inductive HideProp where
  | undef
  | bool (b : Bool)
  | obj
deriving DecidableEq, Repr

/-- `autoUpdate?: boolean | Partial<AutoUpdateOptions>` (float.tsx
line 68).  The lifecycle code only tests `props.autoUpdate !== false`
(line 182). -/
inductive AutoUpdateProp where
  | undef
  | bool (b : Bool)
  | obj
deriving DecidableEq, Repr, Fintype

/-- The props of `FloatRoot` that feed the middleware-pipeline effect
(float.tsx lines 116-177).  `middleware` models the user-supplied
middleware: the list the code receives directly, or — when the prop is a
function — the list that the function returns when called with the live
element-handle refs (lines 155-162); either way the entries land in the
pipeline in their list order, so we model each user middleware by an
opaque identifier. -/
structure FloatProps where
  offset : OffsetProp
  flip : FlipProp
  shift : ShiftProp
  autoPlacement : AutoPlacementProp
  arrow : ArrowProp
  hide : HideProp
  middleware : List Nat
  autoUpdate : AutoUpdateProp
deriving DecidableEq, Repr

/-! ### Middleware pipeline (float.tsx lines 116-177) -/

/-- A middleware entry of the pipeline.  Built-in entries are tagged by
which factory produced them; a user-supplied entry keeps its identifier. -/
inductive Mw where
  | offset
  | flip
  | shift
  | autoPlacement
  | arrow
  | user (i : Nat)
  | hide
deriving DecidableEq, Repr

/-- Guard of the `offset` push (float.tsx lines 118-121):
`typeof props.offset === 'number' || ... === 'object' || ... === 'function'`. -/
def offsetCond : OffsetProp → Bool
  | OffsetProp.num _ => true
  | OffsetProp.obj => true
  | OffsetProp.func => true
  | OffsetProp.undef => false

/-- Guard of the `flip` push (float.tsx lines 124-127):
`props.flip === true || typeof props.flip === 'number' || typeof props.flip === 'object'`. -/
def flipCond : FlipProp → Bool
  | FlipProp.bool b => b
  | FlipProp.num _ => true
  | FlipProp.obj => true
  | FlipProp.undef => false

/-- Guard of the `shift` push (float.tsx lines 133-136):
`props.shift === true || typeof props.shift === 'number' || typeof props.shift === 'object'`. -/
def shiftCond : ShiftProp → Bool
  | ShiftProp.bool b => b
  | ShiftProp.num _ => true
  | ShiftProp.obj => true
  | ShiftProp.undef => false

/-- Guard of the `autoPlacement` push (float.tsx line 142):
`props.autoPlacement === true || typeof props.autoPlacement === 'object'`. -/
def autoPlacementCond : AutoPlacementProp → Bool
  | AutoPlacementProp.bool b => b
  | AutoPlacementProp.obj => true
  | AutoPlacementProp.undef => false

/-- Guard of the `arrow` push (float.tsx line 149):
`props.arrow === true || typeof props.arrow === 'number'`. -/
def arrowCond : ArrowProp → Bool
  | ArrowProp.bool b => b
  | ArrowProp.num _ => true
  | ArrowProp.undef => false

/-- Guard of the `hide` push (float.tsx line 163):
`props.hide === true || typeof props.hide === 'object'`. -/
def hideCond : HideProp → Bool
  | HideProp.bool b => b
  | HideProp.obj => true
  | HideProp.undef => false

/-- The middleware-pipeline effect body (float.tsx lines 116-168): starting
from an empty array `_middleware`, the code pushes `offset`, `flip`,
`shift`, `autoPlacement`, `arrow` — each under its guard —, then spreads
the user-supplied middleware, then pushes `hide` under its guard.  The
sequential pushes are rendered as list concatenation in push order. -/
def buildMiddleware (p : FloatProps) : List Mw :=
  (if offsetCond p.offset then [Mw.offset] else [])
    ++ (if flipCond p.flip then [Mw.flip] else [])
    ++ (if shiftCond p.shift then [Mw.shift] else [])
    ++ (if autoPlacementCond p.autoPlacement then [Mw.autoPlacement] else [])
    ++ (if arrowCond p.arrow then [Mw.arrow] else [])
    ++ p.middleware.map Mw.user
    ++ (if hideCond p.hide then [Mw.hide] else [])

/-- Position of each middleware kind in the fixed pipeline order
`offset, flip, shift, autoPlacement, arrow, user middleware, hide`. -/
def mwRank : Mw → Nat
  | Mw.offset => 0
  | Mw.flip => 1
  | Mw.shift => 2
  | Mw.autoPlacement => 3
  | Mw.arrow => 4
  | Mw.user _ => 5
  | Mw.hide => 6

/-- Extract the identifier of a user-supplied middleware entry. -/
def userIdx : Mw → Option Nat
  | Mw.user i => some i
  | _ => none

/-! ### Show/hide lifecycle (float.tsx lines 34-35, 179-226)

The component keeps two module-level registries keyed by the instance id:
`autoUpdateCleanerMap` (the auto-update subscription cleaners) and
`showStateMap` (the shown marks).  For a single instance the only relevant
information is whether its own entry is present, so the state carries one
Boolean per registry, together with the element-handle attachment flags
(`refs.reference.current` / `refs.floating.current` being non-null) and
the internal `show` state variable the effect is keyed on. -/

/-- The lifecycle-relevant state of one Float instance:
`refAttached`/`floatAttached` model `refs.reference.current !== null` /
`refs.floating.current !== null`; `showFlag` models the `show` state
variable (float.tsx line 94); `showState` models
`showStateMap.get(id) !== undefined`; `cleaner` models
`autoUpdateCleanerMap.get(id) !== undefined`. -/
structure LifecycleState where
  refAttached : Bool
  floatAttached : Bool
  showFlag : Bool
  showState : Bool
  cleaner : Bool
deriving DecidableEq, Repr, Fintype

/-- Observable actions of the lifecycle effect, in the order the code
performs them: registry writes, callback invocations, and the
subscription start/dispose operations. -/
inductive Action where
  | markShown      -- `showStateMap.set(id, true)` (line 209)
  | onShow         -- `events.show()` (line 212)
  | startSub       -- `autoUpdateCleanerMap.set(id, autoUpdate(...))` (line 185)
  | unmarkShown    -- `showStateMap.delete(id)` (line 219)
  | disposeSub     -- `disposeAutoUpdate()` (line 198)
  | removeSub      -- `autoUpdateCleanerMap.delete(id)` (line 200)
  | onHide         -- `events.hide()` (line 223)
deriving DecidableEq, Repr

/-- `startAutoUpdate` (float.tsx lines 179-194): subscribes iff both
element handles are attached, `props.autoUpdate !== false`, and no cleaner
is registered for this id yet. -/
def startAutoUpdate (au : AutoUpdateProp) (s : LifecycleState) :
    LifecycleState × List Action :=
  if s.refAttached && s.floatAttached
      && !(au == AutoUpdateProp.bool false) && !s.cleaner then
    ({ s with cleaner := true }, [Action.startSub])
  else
    (s, [])

/-- `clearAutoUpdate` (float.tsx lines 196-201): invoke the registered
cleaner, then delete its registry entry. -/
def clearAutoUpdate (s : LifecycleState) : LifecycleState × List Action :=
  ({ s with cleaner := false }, [Action.disposeSub, Action.removeSub])

/-- The body of the lifecycle effect (float.tsx lines 203-226).  The show
branch (lines 204-213) marks the shown registry, fires `events.show()`,
then calls `startAutoUpdate`; the hide branch (lines 214-224) deletes the
shown mark, calls `clearAutoUpdate`, then fires `events.hide()`. -/
def runEffect (au : AutoUpdateProp) (s : LifecycleState) :
    LifecycleState × List Action :=
  if s.refAttached && s.floatAttached && s.showFlag && !s.showState then
    let s1 := { s with showState := true }
    let r := startAutoUpdate au s1
    (r.1, [Action.markShown, Action.onShow] ++ r.2)
  else if !s.showFlag && s.showState && s.cleaner then
    let s1 := { s with showState := false }
    let r := clearAutoUpdate s1
    (r.1, [Action.unmarkShown] ++ r.2 ++ [Action.onHide])
  else
    (s, [])

/-- External events driving one instance.  `setShow` changes the `show`
state variable and then runs the effect (its dependency list is `[show]`,
float.tsx line 226); `setAttached` models React (de)attaching the element
handles, which does not re-run the effect. -/
inductive Ev where
  | setShow (b : Bool)
  | setAttached (r f : Bool)
deriving DecidableEq, Repr, Fintype

/-- One event step. -/
def stepEv (au : AutoUpdateProp) (s : LifecycleState) : Ev → LifecycleState × List Action
  | Ev.setShow b => runEffect au { s with showFlag := b }
  | Ev.setAttached r f => ({ s with refAttached := r, floatAttached := f }, [])

/-- Run a list of events, accumulating the action trace. -/
def runEvents (au : AutoUpdateProp) (s : LifecycleState) :
    List Ev → LifecycleState × List Action
  | [] => (s, [])
  | e :: es =>
    let r1 := stepEv au s e
    let r2 := runEvents au r1.1 es
    (r2.1, r1.2 ++ r2.2)

/-- State of a freshly mounted instance: no handles attached yet, both
registries empty, `show` initialised from `props.show` with default
`false` (float.tsx line 94). -/
def initState (showProp : Bool) : LifecycleState :=
  { refAttached := false
    floatAttached := false
    showFlag := showProp
    showState := false
    cleaner := false }

/-! ### Transition hooks (float.tsx lines 256-270) -/

/-- The four boundaries of the enter/leave animations offered by the
external `Transition` primitive. -/
inductive Boundary where
  | beforeEnter
  | afterEnter
  | beforeLeave
  | afterLeave
deriving DecidableEq, Repr

/-- Which commit of the internal `show` state `transitionProps` wires to
each animation boundary (float.tsx lines 264-269): `beforeEnter` runs
`setShow(true)`, `afterLeave` runs `setShow(false)`, and no other boundary
hook is passed to the `Transition`. -/
def transitionCommit : Boundary → Option Bool
  | Boundary.beforeEnter => some true
  | Boundary.afterLeave => some false
  | Boundary.afterEnter => none
  | Boundary.beforeLeave => none

/-! ### Throttled recomputation (float.tsx lines 111-114, 185-192) -/

/-- Trace events of the auto-update callback, stamped with the wall-clock
time (in ms) of the firing. -/
inductive UpdEvent where
  | recompute (t : Nat)   -- `update()` (line 112)
  | onUpdate (t : Nat)    -- `events.update()` (line 113)
deriving DecidableEq, Repr

/-- `updateFloating` (float.tsx lines 111-114): recompute the coordinates
(`update()`), then invoke the `onUpdate` callback (`events.update()`), in
that order. -/
def updateFloating (t : Nat) : List UpdEvent :=
  [UpdEvent.recompute t, UpdEvent.onUpdate t]

/-- The wait passed to `throttle(updateFloating, 16)` (float.tsx
line 188). -/
def throttleWait : Nat := 16

/-- Model of `lodash.throttle`'s invocation discipline for the wrapped
callback: given the time of the previous invocation (if any) and the times
at which the throttled function is called, an invocation goes through only
when at least `wait` ms have elapsed since the previous invocation.
Returns the times at which the wrapped callback actually fires. -/
def throttleFired (wait : Nat) : Option Nat → List Nat → List Nat
  | _, [] => []
  | none, t :: ts => t :: throttleFired wait (some t) ts
  | some l, t :: ts =>
    if l + wait ≤ t then t :: throttleFired wait (some t) ts
    else throttleFired wait (some l) ts

/-- The trace produced by the throttled `updateFloating`: every invocation
that goes through runs `updateFloating` at its firing time. -/
def throttleTrace (wait : Nat) : Option Nat → List Nat → List UpdEvent
  | _, [] => []
  | none, t :: ts => updateFloating t ++ throttleTrace wait (some t) ts
  | some l, t :: ts =>
    if l + wait ≤ t then updateFloating t ++ throttleTrace wait (some t) ts
    else throttleTrace wait (some l) ts

/-! ### Arrow sub-component (float.tsx lines 37-55, 329-375) -/

/-- A placement side (`placement.split('-')[0]`). -/
inductive Side where
  | top
  | right
  | bottom
  | left
deriving DecidableEq, Repr

/-- Placement alignment (the part after the `-`, when present). -/
inductive Align where
  | start
  | end_
deriving DecidableEq, Repr

/-- A floating-ui placement: a side, optionally suffixed by `-start` or
`-end`. -/
structure Placement where
  side : Side
  align : Option Align
deriving DecidableEq, Repr

/-- `placement.split('-')[0]` (float.tsx line 346): the matched side of
the placement. -/
def matchedSide (p : Placement) : Side := p.side

/-- The `staticSide` lookup table (float.tsx lines 341-346): the CSS side
opposite the matched placement side. -/
def staticSide : Side → Side
  | Side.top => Side.bottom
  | Side.right => Side.left
  | Side.bottom => Side.top
  | Side.left => Side.right

/-- The four CSS inset properties of the arrow's `style` object. -/
structure ArrowStyle where
  left : String
  top : String
  right : String
  bottom : String
deriving DecidableEq, Repr

/-- Read the field of `ArrowStyle` named by a side. -/
def styleField (st : ArrowStyle) : Side → String
  | Side.left => st.left
  | Side.top => st.top
  | Side.right => st.right
  | Side.bottom => st.bottom

/-- Render an optional arrow coordinate the way the style literal does:
`typeof x === 'number' ? x + 'px' : ''` (float.tsx lines 349-350). -/
def coordPx : Option Int → String
  | some n => toString n ++ "px"
  | none => ""

/-- The `style` object of the `Arrow` sub-component (float.tsx lines
348-354): a literal assigning `left` from `x`, `top` from `y`, empty
`right`/`bottom`, and finally the computed key `[staticSide]` assigning
the negated stand-off `(props.offset ?? 4) * -1 + 'px'` — the computed key
comes last in the literal, so it overwrites any earlier assignment to the
same property. -/
def arrowStyle (off : Option Int) (p : Placement) (x y : Option Int) : ArrowStyle :=
  let base : ArrowStyle :=
    { left := coordPx x
      top := coordPx y
      right := ""
      bottom := "" }
  let standoff := toString ((off.getD 4) * -1) ++ "px"
  match staticSide (matchedSide p) with
  | Side.left => { base with left := standoff }
  | Side.top => { base with top := standoff }
  | Side.right => { base with right := standoff }
  | Side.bottom => { base with bottom := standoff }

/-- The shared Arrow State the root publishes through the context
(float.tsx lines 37-42, 232-237): the current placement and the arrow
coordinates of the last positioning pass (the element ref is irrelevant to
the claims and omitted). -/
structure ArrowState where
  placement : Placement
  x : Option Int
  y : Option Int
deriving DecidableEq, Repr

/-- `useArrowContext` (float.tsx lines 47-55): look up the Arrow State
from the enclosing Float; when the lookup yields nothing (no enclosing
`<Float />`), throw a descriptive configuration error naming the missing
parent; otherwise return the state. -/
def useArrowContext (component : String) (context : Option ArrowState) :
    Except String ArrowState :=
  match context with
  | none =>
    Except.error ("<" ++ component ++ " /> is missing a parent <Float /> component.")
  | some ctx => Except.ok ctx

/-! ### Helper lemmas about the pipeline -/

lemma offset_mem_build (p : FloatProps) :
    Mw.offset ∈ buildMiddleware p ↔ offsetCond p.offset = true := by
  unfold buildMiddleware
  split_ifs <;> simp_all [List.mem_map]

lemma flip_mem_build (p : FloatProps) :
    Mw.flip ∈ buildMiddleware p ↔ flipCond p.flip = true := by
  unfold buildMiddleware
  split_ifs <;> simp_all [List.mem_map]

lemma shift_mem_build (p : FloatProps) :
    Mw.shift ∈ buildMiddleware p ↔ shiftCond p.shift = true := by
  unfold buildMiddleware
  split_ifs <;> simp_all [List.mem_map]

lemma autoPlacement_mem_build (p : FloatProps) :
    Mw.autoPlacement ∈ buildMiddleware p ↔ autoPlacementCond p.autoPlacement = true := by
  unfold buildMiddleware
  split_ifs <;> simp_all [List.mem_map]

lemma arrow_mem_build (p : FloatProps) :
    Mw.arrow ∈ buildMiddleware p ↔ arrowCond p.arrow = true := by
  unfold buildMiddleware
  split_ifs <;> simp_all [List.mem_map]

lemma hide_mem_build (p : FloatProps) :
    Mw.hide ∈ buildMiddleware p ↔ hideCond p.hide = true := by
  unfold buildMiddleware
  split_ifs <;> simp_all [List.mem_map]

lemma ite_sublist (c : Prop) [Decidable c] (m : Mw) :
    List.Sublist (if c then [m] else []) [m] := by
  split
  · exact List.Sublist.refl _
  · exact List.nil_sublist _

/-- The pipeline is a sublist of the full canonical pipeline in which every
built-in entry is enabled. -/
lemma build_sublist (p : FloatProps) :
    List.Sublist (buildMiddleware p)
      ([Mw.offset]
        ++ ([Mw.flip]
        ++ ([Mw.shift]
        ++ ([Mw.autoPlacement]
        ++ ([Mw.arrow]
        ++ (p.middleware.map Mw.user
        ++ [Mw.hide])))))) := by
  unfold buildMiddleware
  simp only [List.append_assoc]
  exact (ite_sublist (offsetCond p.offset = true) Mw.offset).append
    ((ite_sublist (flipCond p.flip = true) Mw.flip).append
      ((ite_sublist (shiftCond p.shift = true) Mw.shift).append
        ((ite_sublist (autoPlacementCond p.autoPlacement = true) Mw.autoPlacement).append
          ((ite_sublist (arrowCond p.arrow = true) Mw.arrow).append
            ((List.Sublist.refl (p.middleware.map Mw.user)).append
              (ite_sublist (hideCond p.hide = true) Mw.hide))))))

lemma pairwise_trivial {α : Type} {R : α → α → Prop} (h : ∀ a b, R a b) :
    ∀ l : List α, l.Pairwise R
  | [] => List.Pairwise.nil
  | a :: l => List.Pairwise.cons (fun b _ => h a b) (pairwise_trivial h l)

lemma rank_user_mem {b : Mw} {l : List Nat} (hb : b ∈ l.map Mw.user) :
    mwRank b = 5 := by
  rcases List.mem_map.mp hb with ⟨i, _, h⟩
  subst h
  rfl

lemma rank_lb_user_hide (l : List Nat) :
    ∀ b ∈ l.map Mw.user ++ [Mw.hide], 5 ≤ mwRank b := by
  intro b hb
  rcases List.mem_append.mp hb with h | h
  · exact le_of_eq (rank_user_mem h).symm
  · simp only [List.mem_singleton] at h
    subst h
    simp [mwRank]

lemma pairwise_user_hide (l : List Nat) :
    (l.map Mw.user ++ [Mw.hide]).Pairwise (fun a b => mwRank a ≤ mwRank b) := by
  apply List.pairwise_append.mpr
  refine ⟨List.pairwise_map.mpr (pairwise_trivial (fun _ _ => le_refl 5) l),
    List.pairwise_singleton _ _, ?_⟩
  intro a ha b hb
  simp only [List.mem_singleton] at hb
  subst hb
  rw [rank_user_mem ha]
  simp [mwRank]

lemma pairwise_cons_rank {m : Mw} {k : Nat} {l : List Mw}
    (hk : mwRank m ≤ k)
    (hub : ∀ b ∈ l, k ≤ mwRank b)
    (hp : l.Pairwise (fun a b => mwRank a ≤ mwRank b)) :
    ([m] ++ l).Pairwise (fun a b => mwRank a ≤ mwRank b) :=
  List.Pairwise.cons (fun b hb => le_trans hk (hub b hb)) hp

lemma rank_lb_arrow (l : List Nat) :
    ∀ b ∈ [Mw.arrow] ++ (l.map Mw.user ++ [Mw.hide]), 4 ≤ mwRank b := by
  intro b hb
  rcases List.mem_append.mp hb with h | h
  · simp only [List.mem_singleton] at h
    subst h
    simp [mwRank]
  · exact le_trans (by omega) (rank_lb_user_hide l b h)

lemma rank_lb_ap (l : List Nat) :
    ∀ b ∈ [Mw.autoPlacement] ++ ([Mw.arrow] ++ (l.map Mw.user ++ [Mw.hide])),
      3 ≤ mwRank b := by
  intro b hb
  rcases List.mem_append.mp hb with h | h
  · simp only [List.mem_singleton] at h
    subst h
    simp [mwRank]
  · exact le_trans (by omega) (rank_lb_arrow l b h)

lemma rank_lb_shift (l : List Nat) :
    ∀ b ∈ [Mw.shift]
        ++ ([Mw.autoPlacement] ++ ([Mw.arrow] ++ (l.map Mw.user ++ [Mw.hide]))),
      2 ≤ mwRank b := by
  intro b hb
  rcases List.mem_append.mp hb with h | h
  · simp only [List.mem_singleton] at h
    subst h
    simp [mwRank]
  · exact le_trans (by omega) (rank_lb_ap l b h)

lemma rank_lb_flip (l : List Nat) :
    ∀ b ∈ [Mw.flip]
        ++ ([Mw.shift]
        ++ ([Mw.autoPlacement] ++ ([Mw.arrow] ++ (l.map Mw.user ++ [Mw.hide])))),
      1 ≤ mwRank b := by
  intro b hb
  rcases List.mem_append.mp hb with h | h
  · simp only [List.mem_singleton] at h
    subst h
    simp [mwRank]
  · exact le_trans (by omega) (rank_lb_shift l b h)

lemma pairwise_canonical (l : List Nat) :
    ([Mw.offset]
        ++ ([Mw.flip]
        ++ ([Mw.shift]
        ++ ([Mw.autoPlacement]
        ++ ([Mw.arrow]
        ++ (l.map Mw.user
        ++ [Mw.hide])))))).Pairwise (fun a b => mwRank a ≤ mwRank b) := by
  exact pairwise_cons_rank (k := 1) (by simp [mwRank]) (rank_lb_flip l)
    (pairwise_cons_rank (k := 2) (by simp [mwRank]) (rank_lb_shift l)
      (pairwise_cons_rank (k := 3) (by simp [mwRank]) (rank_lb_ap l)
        (pairwise_cons_rank (k := 4) (by simp [mwRank]) (rank_lb_arrow l)
          (pairwise_cons_rank (k := 5) (by simp [mwRank]) (rank_lb_user_hide l)
            (pairwise_user_hide l)))))

lemma pairwise_build (p : FloatProps) :
    (buildMiddleware p).Pairwise (fun a b => mwRank a ≤ mwRank b) :=
  List.Pairwise.sublist (build_sublist p) (pairwise_canonical p.middleware)

lemma filterMap_userIdx_map (l : List Nat) :
    (l.map Mw.user).filterMap userIdx = l := by
  induction l with
  | nil => rfl
  | cons a l ih => simp [userIdx, ih]

lemma filterMap_userIdx_comp (l : List Nat) :
    l.filterMap (userIdx ∘ Mw.user) = l := by
  induction l with
  | nil => rfl
  | cons a l ih => simp [List.filterMap_cons, Function.comp, userIdx, ih]

lemma filterMap_build (p : FloatProps) :
    (buildMiddleware p).filterMap userIdx = p.middleware := by
  unfold buildMiddleware
  split_ifs <;>
    simp [userIdx, List.filterMap_append, filterMap_userIdx_map,
      filterMap_userIdx_comp]

lemma count_ite_le (c : Prop) [Decidable c] (m m' : Mw) :
    (if c then [m'] else []).count m ≤ 1 := by
  split <;> simp [List.count_singleton, List.count_nil]
  split <;> simp

lemma count_user_builtin (m : Mw) (hm : userIdx m = none) (l : List Nat) :
    (l.map Mw.user).count m = 0 := by
  refine List.count_eq_zero.mpr ?_
  intro hmem
  rcases List.mem_map.mp hmem with ⟨i, _, h⟩
  subst h
  simp [userIdx] at hm

lemma count_build_le (p : FloatProps) (m : Mw) (hm : userIdx m = none) :
    (buildMiddleware p).count m ≤ 1 := by
  have hsub := build_sublist p
  have hle := List.Sublist.count_le hsub m
  refine le_trans hle ?_
  simp only [List.count_append, count_user_builtin m hm]
  cases m <;> simp_all [List.count_singleton, userIdx, List.count_cons, List.count_nil]

/-! ### Claim theorems for the middleware pipeline -/

/-- **C1.** For every configuration of the optional middleware props, the
pipeline built by the Float root lists its entries in the fixed order
offset, flip, shift, autoPlacement, arrow, user-supplied middleware, hide:
the pipeline is sorted by the canonical rank (so user middleware always
sits after the built-in geometry middlewares and before `hide`), each
built-in entry occurs at most once and exactly when its option is enabled,
and the user-supplied middleware appear exactly as supplied, in order. -/
theorem c1_pipeline_order (p : FloatProps) :
    (buildMiddleware p).Pairwise (fun a b => mwRank a ≤ mwRank b)
    ∧ (buildMiddleware p).filterMap userIdx = p.middleware
    ∧ (Mw.offset ∈ buildMiddleware p ↔ offsetCond p.offset = true)
    ∧ (Mw.flip ∈ buildMiddleware p ↔ flipCond p.flip = true)
    ∧ (Mw.shift ∈ buildMiddleware p ↔ shiftCond p.shift = true)
    ∧ (Mw.autoPlacement ∈ buildMiddleware p ↔ autoPlacementCond p.autoPlacement = true)
    ∧ (Mw.arrow ∈ buildMiddleware p ↔ arrowCond p.arrow = true)
    ∧ (Mw.hide ∈ buildMiddleware p ↔ hideCond p.hide = true)
    ∧ (buildMiddleware p).count Mw.offset ≤ 1
    ∧ (buildMiddleware p).count Mw.flip ≤ 1
    ∧ (buildMiddleware p).count Mw.shift ≤ 1
    ∧ (buildMiddleware p).count Mw.autoPlacement ≤ 1
    ∧ (buildMiddleware p).count Mw.arrow ≤ 1
    ∧ (buildMiddleware p).count Mw.hide ≤ 1 :=
  ⟨pairwise_build p, filterMap_build p, offset_mem_build p, flip_mem_build p,
    shift_mem_build p, autoPlacement_mem_build p, arrow_mem_build p,
    hide_mem_build p, count_build_le p Mw.offset rfl, count_build_le p Mw.flip rfl,
    count_build_le p Mw.shift rfl, count_build_le p Mw.autoPlacement rfl,
    count_build_le p Mw.arrow rfl, count_build_le p Mw.hide rfl⟩

/-! Spec-side inclusion criteria for claim C3, written from the claim's
words: a feature's middleware is included iff the configured value is
truthy, numeric, or an object; boolean `false` or `undefined` omits it.
Per value class: `undefined` is falsy and neither numeric nor an object;
a boolean is truthy iff it is `true`; a number is numeric (also `0`);
objects and functions are truthy. -/

/-- Claim-side criterion for `offset` (its domain holds numbers, objects
and derivable functions). -/
def offsetClaimEnabled : OffsetProp → Bool
  | OffsetProp.undef => false
  | OffsetProp.num _ => true
  | OffsetProp.obj => true
  | OffsetProp.func => true

/-- Claim-side criterion for `flip`. -/
def flipClaimEnabled : FlipProp → Bool
  | FlipProp.undef => false
  | FlipProp.bool b => b
  | FlipProp.num _ => true
  | FlipProp.obj => true

/-- Claim-side criterion for `shift`. -/
def shiftClaimEnabled : ShiftProp → Bool
  | ShiftProp.undef => false
  | ShiftProp.bool b => b
  | ShiftProp.num _ => true
  | ShiftProp.obj => true

/-- Claim-side criterion for `autoPlacement` (its domain holds booleans
and objects). -/
def autoPlacementClaimEnabled : AutoPlacementProp → Bool
  | AutoPlacementProp.undef => false
  | AutoPlacementProp.bool b => b
  | AutoPlacementProp.obj => true

/-- Claim-side criterion for `arrow` (its domain holds booleans and
numbers). -/
def arrowClaimEnabled : ArrowProp → Bool
  | ArrowProp.undef => false
  | ArrowProp.bool b => b
  | ArrowProp.num _ => true

/-- Claim-side criterion for `hide`. -/
def hideClaimEnabled : HideProp → Bool
  | HideProp.undef => false
  | HideProp.bool b => b
  | HideProp.obj => true

/-- **C3.** For each optional feature among offset, flip, shift,
autoPlacement, arrow and hide, the feature's middleware is in the pipeline
iff the configured value is truthy, numeric, or an object (per the
feature's declared value domain); boolean `false` or `undefined` omits
it. -/
theorem c3_feature_inclusion (p : FloatProps) :
    (Mw.offset ∈ buildMiddleware p ↔ offsetClaimEnabled p.offset = true)
    ∧ (Mw.flip ∈ buildMiddleware p ↔ flipClaimEnabled p.flip = true)
    ∧ (Mw.shift ∈ buildMiddleware p ↔ shiftClaimEnabled p.shift = true)
    ∧ (Mw.autoPlacement ∈ buildMiddleware p ↔ autoPlacementClaimEnabled p.autoPlacement = true)
    ∧ (Mw.arrow ∈ buildMiddleware p ↔ arrowClaimEnabled p.arrow = true)
    ∧ (Mw.hide ∈ buildMiddleware p ↔ hideClaimEnabled p.hide = true) := by
  have h1 : offsetClaimEnabled p.offset = offsetCond p.offset := by
    cases p.offset <;> rfl
  have h2 : flipClaimEnabled p.flip = flipCond p.flip := by
    cases p.flip <;> rfl
  have h3 : shiftClaimEnabled p.shift = shiftCond p.shift := by
    cases p.shift <;> rfl
  have h4 : autoPlacementClaimEnabled p.autoPlacement = autoPlacementCond p.autoPlacement := by
    cases p.autoPlacement <;> rfl
  have h5 : arrowClaimEnabled p.arrow = arrowCond p.arrow := by
    cases p.arrow <;> rfl
  have h6 : hideClaimEnabled p.hide = hideCond p.hide := by
    cases p.hide <;> rfl
  rw [h1, h2, h3, h4, h5, h6]
  exact ⟨offset_mem_build p, flip_mem_build p, shift_mem_build p,
    autoPlacement_mem_build p, arrow_mem_build p, hide_mem_build p⟩

/-! ### Claim theorems for the lifecycle -/

/-- **C4.** A Hidden-to-Shown transition fires exactly when both element
handles are attached, visibility is requested, and the instance is not
already marked shown; on that transition the registry entry is marked
shown first, then `onShow` is invoked, then a subscription is started
(only when `startAutoUpdate`'s own guard passes); a subscription is
started only if none exists; and requesting show on an already-shown
instance is a no-op, so it creates no second subscription and does not
refire `onShow`. -/
theorem c4_show_transition (au : AutoUpdateProp) (s : LifecycleState) :
    (Action.onShow ∈ (runEffect au s).2 ↔
      (s.refAttached && s.floatAttached && s.showFlag && !s.showState) = true)
    ∧ ((s.refAttached && s.floatAttached && s.showFlag && !s.showState) = true →
        (runEffect au s).2 =
          [Action.markShown, Action.onShow] ++
            (if (s.refAttached && s.floatAttached
                  && !(au == AutoUpdateProp.bool false) && !s.cleaner) = true
             then [Action.startSub] else []))
    ∧ (Action.startSub ∈ (runEffect au s).2 → s.cleaner = false)
    ∧ (s.showFlag = true → s.showState = true → runEffect au s = (s, [])) := by
  revert au s
  decide

/-- **C4, witness.** Concrete transitions: the show transition of an
attached, requested-visible, not-yet-shown instance emits mark, `onShow`
and a subscription start, in that order; and a show request on an
already-shown instance is a no-op. -/
theorem c4_witness :
    (runEffect AutoUpdateProp.undef
        ⟨true, true, true, false, false⟩).2
        = [Action.markShown, Action.onShow, Action.startSub]
    ∧ runEffect AutoUpdateProp.undef ⟨true, true, true, true, false⟩
        = (⟨true, true, true, true, false⟩, []) :=
  ⟨(c4_show_transition AutoUpdateProp.undef ⟨true, true, true, false, false⟩).2.1 rfl,
    (c4_show_transition AutoUpdateProp.undef ⟨true, true, true, true, false⟩).2.2.2 rfl rfl⟩

/-- **C5.** A Shown-to-Hidden transition fires exactly when hiding is
requested, the registry marks the instance shown, and a subscription
exists; on that transition the shown mark is removed first, then the
subscription is disposed and deregistered, then `onHide` is invoked; and a
hide request with no active subscription is a no-op: no callback fires and
neither registry is mutated. -/
theorem c5_hide_transition (au : AutoUpdateProp) (s : LifecycleState) :
    (Action.onHide ∈ (runEffect au s).2 ↔
      (!s.showFlag && s.showState && s.cleaner) = true)
    ∧ ((!s.showFlag && s.showState && s.cleaner) = true →
        (runEffect au s).2 =
          [Action.unmarkShown, Action.disposeSub, Action.removeSub, Action.onHide]
        ∧ (runEffect au s).1 = { s with showState := false, cleaner := false })
    ∧ (s.showFlag = false → s.cleaner = false → runEffect au s = (s, [])) := by
  revert au s
  decide

/-- **C5, witness.** Concrete transitions: the hide transition of a shown,
subscribed instance emits unmark, dispose, deregister and `onHide`, in
that order, and clears both registry entries; and a hide request with no
subscription is a no-op. -/
theorem c5_witness :
    ((runEffect AutoUpdateProp.undef ⟨true, true, false, true, true⟩).2
        = [Action.unmarkShown, Action.disposeSub, Action.removeSub, Action.onHide]
      ∧ (runEffect AutoUpdateProp.undef ⟨true, true, false, true, true⟩).1
        = ⟨true, true, false, false, false⟩)
    ∧ runEffect AutoUpdateProp.undef ⟨true, true, false, false, false⟩
        = (⟨true, true, false, false, false⟩, []) :=
  ⟨(c5_hide_transition AutoUpdateProp.undef ⟨true, true, false, true, true⟩).2.1 rfl,
    (c5_hide_transition AutoUpdateProp.undef ⟨true, true, false, false, false⟩).2.2 rfl rfl⟩

/-! ### C2: subscription/shown invariant -/

/-- Bool rendering of claim C2's invariant at the state reached by running
`evs` on a fresh instance: a subscription-cleaner entry exists iff the
instance is currently shown (marked shown in the registry) and both
element handles are attached. -/
def c2ClaimCheck (au : AutoUpdateProp) (showProp : Bool) (evs : List Ev) : Bool :=
  let s := (runEvents au (initState showProp) evs).1
  s.cleaner == (s.showState && s.refAttached && s.floatAttached)

/-- The event sequence of the C2 counterexample: attach both handles, then
request show. -/
def c2Events : List Ev := [Ev.setAttached true true, Ev.setShow true]

/-- **C2, counterexample.** For an instance configured with
`autoUpdate = false`, attaching both handles and requesting show leaves
the instance marked shown with both handles attached but with no
subscription-cleaner entry, so the claimed if-and-only-if invariant fails
at this concrete lifecycle point. -/
theorem c2_counterexample :
    c2ClaimCheck (AutoUpdateProp.bool false) false c2Events = false
    ∧ (runEvents (AutoUpdateProp.bool false) (initState false) c2Events).1.showState = true
    ∧ (runEvents (AutoUpdateProp.bool false) (initState false) c2Events).1.refAttached = true
    ∧ (runEvents (AutoUpdateProp.bool false) (initState false) c2Events).1.floatAttached = true
    ∧ (runEvents (AutoUpdateProp.bool false) (initState false) c2Events).1.cleaner = false := by
  decide

lemma c2_inv_step (au : AutoUpdateProp) (h : au ≠ AutoUpdateProp.bool false)
    (s : LifecycleState) (e : Ev) (hinv : s.cleaner = s.showState) :
    (stepEv au s e).1.cleaner = (stepEv au s e).1.showState := by
  revert s e hinv
  rcases au with _ | b | _
  · decide
  · cases b
    · exact absurd rfl h
    · decide
  · decide

/-- **C2, amended.** For every Float instance whose `autoUpdate` prop is
not `false`, at every point of its lifecycle a subscription-cleaner entry
exists if and only if the instance is marked shown in the shown-state
registry.  (Attachment of both handles is required — together with
requested visibility — at the moment the instance becomes marked shown,
but the subscription is keyed to the shown mark, not to continued
attachment.) -/
theorem c2_subscription_iff_marked_shown (au : AutoUpdateProp)
    (h : au ≠ AutoUpdateProp.bool false) (showProp : Bool) (evs : List Ev) :
    (runEvents au (initState showProp) evs).1.cleaner
      = (runEvents au (initState showProp) evs).1.showState := by
  have main : ∀ (evs : List Ev) (s : LifecycleState), s.cleaner = s.showState →
      (runEvents au s evs).1.cleaner = (runEvents au s evs).1.showState := by
    intro evs
    induction evs with
    | nil => intro s hs; exact hs
    | cons e es ih =>
      intro s hs
      exact ih (stepEv au s e).1 (c2_inv_step au h s e hs)
  exact main evs (initState showProp) rfl

/-- **C2, amended, witness.** Concrete run: with the default (absent)
`autoUpdate` prop, after attaching and showing, the subscription entry and
the shown mark agree (both are present). -/
theorem c2_witness :
    (runEvents AutoUpdateProp.undef (initState false) c2Events).1.cleaner
      = (runEvents AutoUpdateProp.undef (initState false) c2Events).1.showState :=
  c2_subscription_iff_marked_shown AutoUpdateProp.undef (by decide) false c2Events

/-! ### C10: `autoUpdate = false` disables hide forever -/

lemma c10_step (s : LifecycleState) (e : Ev) (h : s.cleaner = false) :
    (stepEv (AutoUpdateProp.bool false) s e).1.cleaner = false
    ∧ Action.startSub ∉ (stepEv (AutoUpdateProp.bool false) s e).2
    ∧ Action.onHide ∉ (stepEv (AutoUpdateProp.bool false) s e).2
    ∧ Action.unmarkShown ∉ (stepEv (AutoUpdateProp.bool false) s e).2
    ∧ (s.showState = true → (stepEv (AutoUpdateProp.bool false) s e).1.showState = true) := by
  revert s e h
  decide

lemma c10_run (evs : List Ev) :
    ∀ s : LifecycleState, s.cleaner = false →
      (runEvents (AutoUpdateProp.bool false) s evs).1.cleaner = false
      ∧ Action.startSub ∉ (runEvents (AutoUpdateProp.bool false) s evs).2
      ∧ Action.onHide ∉ (runEvents (AutoUpdateProp.bool false) s evs).2
      ∧ Action.unmarkShown ∉ (runEvents (AutoUpdateProp.bool false) s evs).2
      ∧ (s.showState = true →
          (runEvents (AutoUpdateProp.bool false) s evs).1.showState = true) := by
  induction evs with
  | nil =>
    intro s h
    exact ⟨h, by simp [runEvents], by simp [runEvents], by simp [runEvents],
      fun hs => hs⟩
  | cons e es ih =>
    intro s h
    obtain ⟨h1, h2, h3, h4, h5⟩ := c10_step s e h
    obtain ⟨g1, g2, g3, g4, g5⟩ := ih (stepEv (AutoUpdateProp.bool false) s e).1 h1
    refine ⟨g1, ?_, ?_, ?_, fun hs => g5 (h5 hs)⟩ <;>
      · intro hmem
        rcases List.mem_append.mp hmem with hm | hm
        · simp_all
        · simp_all

/-- **C10.** For every Float instance configured with `autoUpdate = false`
(starting from any state with no subscription entry, in particular a fresh
mount), a show transition still marks the instance shown and fires
`onShow` but starts no subscription; and over every subsequent event
sequence no subscription is ever created, `onHide` never fires, and the
shown-registry entry is never removed — in particular once marked shown
the instance stays marked shown forever. -/
theorem c10_autoupdate_false (s0 : LifecycleState) (evs : List Ev)
    (h : s0.cleaner = false) :
    ((runEvents (AutoUpdateProp.bool false) s0 evs).1.cleaner = false
      ∧ Action.startSub ∉ (runEvents (AutoUpdateProp.bool false) s0 evs).2
      ∧ Action.onHide ∉ (runEvents (AutoUpdateProp.bool false) s0 evs).2
      ∧ Action.unmarkShown ∉ (runEvents (AutoUpdateProp.bool false) s0 evs).2
      ∧ (s0.showState = true →
          (runEvents (AutoUpdateProp.bool false) s0 evs).1.showState = true))
    ∧ ((s0.refAttached && s0.floatAttached && s0.showFlag && !s0.showState) = true →
        (runEffect (AutoUpdateProp.bool false) s0).2 = [Action.markShown, Action.onShow]
        ∧ (runEffect (AutoUpdateProp.bool false) s0).1.showState = true) := by
  refine ⟨c10_run evs s0 h, ?_⟩
  revert h
  revert s0
  decide

/-- **C10, witness.** Concrete run: show then hide with `autoUpdate =
false` — afterwards the shown mark is still present, no subscription was
ever created, and neither `onHide` nor an unmark ever happened. -/
theorem c10_witness :
    ((runEvents (AutoUpdateProp.bool false) (initState false)
        [Ev.setAttached true true, Ev.setShow true, Ev.setShow false]).1.cleaner = false
      ∧ Action.startSub ∉ (runEvents (AutoUpdateProp.bool false) (initState false)
          [Ev.setAttached true true, Ev.setShow true, Ev.setShow false]).2
      ∧ Action.onHide ∉ (runEvents (AutoUpdateProp.bool false) (initState false)
          [Ev.setAttached true true, Ev.setShow true, Ev.setShow false]).2
      ∧ Action.unmarkShown ∉ (runEvents (AutoUpdateProp.bool false) (initState false)
          [Ev.setAttached true true, Ev.setShow true, Ev.setShow false]).2
      ∧ ((initState false).showState = true →
          (runEvents (AutoUpdateProp.bool false) (initState false)
            [Ev.setAttached true true, Ev.setShow true, Ev.setShow false]).1.showState = true))
    ∧ (((initState false).refAttached && (initState false).floatAttached
          && (initState false).showFlag && !(initState false).showState) = true →
        (runEffect (AutoUpdateProp.bool false) (initState false)).2
            = [Action.markShown, Action.onShow]
        ∧ (runEffect (AutoUpdateProp.bool false) (initState false)).1.showState = true) :=
  c10_autoupdate_false (initState false)
    [Ev.setAttached true true, Ev.setShow true, Ev.setShow false] rfl

/-! ### C6: commit boundaries of the `show` state -/

/-- Bool rendering of claim C6's placement of the commits: `shown` is
committed to `true` upon completion of the entering animation
(`afterEnter`) and to `false` upon completion of the leaving animation
(`afterLeave`). -/
def c6ClaimCheck : Bool :=
  (transitionCommit Boundary.afterEnter == some true)
    && (transitionCommit Boundary.afterLeave == some false)

/-- **C6, counterexample.** The claim fails at the entering side:
`transitionProps` wires no `afterEnter` hook at all — the `true` commit is
wired to `beforeEnter`, the start of the entering animation, not its
completion. -/
theorem c6_counterexample :
    c6ClaimCheck = false
    ∧ transitionCommit Boundary.afterEnter = none
    ∧ transitionCommit Boundary.beforeEnter = some true := by
  decide

/-- **C6, amended.** The committed `show` state is finalized only at
animation boundaries, never at the moment visibility is requested:
`show` is committed to `true` at the start of the entering animation
(`beforeEnter`), committed to `false` upon completion of the leaving
animation (`afterLeave`), and no other boundary commits anything. -/
theorem c6_commit_boundaries :
    transitionCommit Boundary.beforeEnter = some true
    ∧ transitionCommit Boundary.afterLeave = some false
    ∧ transitionCommit Boundary.afterEnter = none
    ∧ transitionCommit Boundary.beforeLeave = none := by
  decide

/-! ### C7: throttled recomputation -/

lemma throttleFired_ge (wait : Nat) :
    ∀ (ts : List Nat) (l : Nat), ∀ x ∈ throttleFired wait (some l) ts, l + wait ≤ x := by
  intro ts
  induction ts with
  | nil =>
    intro l x hx
    simp [throttleFired] at hx
  | cons t ts ih =>
    intro l x hx
    rw [throttleFired] at hx
    by_cases hlt : l + wait ≤ t
    · rw [if_pos hlt] at hx
      rcases List.mem_cons.mp hx with h | h
      · exact h ▸ hlt
      · exact le_trans (le_trans hlt (Nat.le_add_right t wait)) (ih t x h)
    · rw [if_neg hlt] at hx
      exact ih l x hx

lemma throttleFired_chain (wait : Nat) :
    ∀ (ts : List Nat) (last : Option Nat),
      (throttleFired wait last ts).Chain' (fun a b => a + wait ≤ b) := by
  intro ts
  induction ts with
  | nil => intro last; cases last <;> exact List.chain'_nil
  | cons t ts ih =>
    intro last
    cases last with
    | none =>
      rw [throttleFired]
      refine List.chain'_cons'.mpr ⟨?_, ih (some t)⟩
      intro b hb
      exact throttleFired_ge wait ts t b (List.mem_of_mem_head? hb)
    | some l =>
      rw [throttleFired]
      split
      · refine List.chain'_cons'.mpr ⟨?_, ih (some t)⟩
        intro b hb
        exact throttleFired_ge wait ts t b (List.mem_of_mem_head? hb)
      · exact ih (some l)

lemma throttleTrace_eq (wait : Nat) :
    ∀ (ts : List Nat) (last : Option Nat),
      throttleTrace wait last ts = (throttleFired wait last ts).flatMap updateFloating := by
  intro ts
  induction ts with
  | nil => intro last; cases last <;> rfl
  | cons t ts ih =>
    intro last
    cases last with
    | none => simp [throttleTrace, throttleFired, ih (some t)]
    | some l =>
      rw [throttleTrace, throttleFired]
      split
      · simp [ih (some t)]
      · exact ih (some l)

/-- **C7.** The recomputation callback handed to the auto-update
subscription is `updateFloating` throttled with a 16&thinsp;ms window:
every two consecutive firings are at least `throttleWait = 16` ms of
wall-clock time apart, and the trace of the throttled callback is exactly
one run of `updateFloating` per firing — which first recomputes the
coordinates (`update()`) and then invokes the `onUpdate` callback
(`events.update()`), in that order. -/
theorem c7_throttled_update (last : Option Nat) (ts : List Nat) :
    throttleWait = 16
    ∧ (throttleFired throttleWait last ts).Chain' (fun a b => a + throttleWait ≤ b)
    ∧ throttleTrace throttleWait last ts
        = (throttleFired throttleWait last ts).flatMap updateFloating
    ∧ (∀ t : Nat, updateFloating t = [UpdEvent.recompute t, UpdEvent.onUpdate t]) :=
  ⟨rfl, throttleFired_chain throttleWait ts last, throttleTrace_eq throttleWait ts last,
    fun _ => rfl⟩

/-! ### C8: the Arrow sub-component's style -/

/-- Bool rendering of claim C8 at one input: the side opposite the matched
placement side carries the negated stand-off, `left` carries `x` (px when
a number, else the empty string) and `top` carries `y` likewise. -/
def c8ClaimCheck (off : Option Int) (p : Placement) (x y : Option Int) : Bool :=
  let st := arrowStyle off p x y
  (styleField st (staticSide (matchedSide p)) == toString ((off.getD 4) * -1) ++ "px")
    && (st.left == coordPx x)
    && (st.top == coordPx y)

/-- **C8, counterexample.** For placement `bottom` with arrow coordinate
`y = 0` (a number) and the default stand-off, the claim requires
`top: "0px"`, but the computed key `[staticSide]` — which is `top` for
bottom placements and comes last in the style literal — overwrites `top`
with `"-4px"`. -/
theorem c8_counterexample :
    c8ClaimCheck none ⟨Side.bottom, none⟩ none (some 0) = false
    ∧ (arrowStyle none ⟨Side.bottom, none⟩ none (some 0)).top = "-4px" := by
  constructor
  · rfl
  · rfl

/-- **C8, amended.** For every placement, the computed style sets the CSS
side opposite the placement's matched side to the negation of the
stand-off distance (default 4); `left` is the px rendering of `x` (empty
when `x` is not a number) except for `right-*` placements, where the
stand-off assignment overwrites `left`; symmetrically `top` is the px
rendering of `y` except for `bottom-*` placements; the remaining two sides
stay empty. -/
theorem c8_arrow_style (off : Option Int) (p : Placement) (x y : Option Int) :
    styleField (arrowStyle off p x y) (staticSide (matchedSide p))
        = toString ((off.getD 4) * -1) ++ "px"
    ∧ (staticSide (matchedSide p) ≠ Side.left →
        (arrowStyle off p x y).left = coordPx x)
    ∧ (staticSide (matchedSide p) ≠ Side.top →
        (arrowStyle off p x y).top = coordPx y)
    ∧ (staticSide (matchedSide p) ≠ Side.right →
        (arrowStyle off p x y).right = "")
    ∧ (staticSide (matchedSide p) ≠ Side.bottom →
        (arrowStyle off p x y).bottom = "") := by
  rcases p with ⟨side, align⟩
  cases side <;>
    simp [arrowStyle, staticSide, matchedSide, styleField]

/-- **C8, amended, witness.** Placement `top-start` with `x = 5`: the
stand-off lands on `bottom` (`"-4px"`), `left` is `"5px"`, `top` and
`right` are empty. -/
theorem c8_witness :
    styleField (arrowStyle none ⟨Side.top, some Align.start⟩ (some 5) none)
        (staticSide (matchedSide ⟨Side.top, some Align.start⟩))
        = toString (((none : Option Int).getD 4) * -1) ++ "px"
    ∧ (arrowStyle none ⟨Side.top, some Align.start⟩ (some 5) none).left
        = coordPx (some 5)
    ∧ (arrowStyle none ⟨Side.top, some Align.start⟩ (some 5) none).top
        = coordPx none
    ∧ (arrowStyle none ⟨Side.top, some Align.start⟩ (some 5) none).right = "" :=
  ⟨(c8_arrow_style none ⟨Side.top, some Align.start⟩ (some 5) none).1,
    (c8_arrow_style none ⟨Side.top, some Align.start⟩ (some 5) none).2.1 (by decide),
    (c8_arrow_style none ⟨Side.top, some Align.start⟩ (some 5) none).2.2.1 (by decide),
    (c8_arrow_style none ⟨Side.top, some Align.start⟩ (some 5) none).2.2.2.1 (by decide)⟩

/-! ### C9: `useArrowContext` -/

/-- **C9.** Using the Arrow sub-component outside an enclosing Float
instance is fatal: when the context lookup yields nothing,
`useArrowContext` throws a descriptive configuration error that names the
requesting component and the missing `<Float />` parent; when an enclosing
instance exists, the lookup returns its Arrow State without error. -/
theorem c9_arrow_context (component : String) (ctx : Option ArrowState) :
    (ctx = none →
      useArrowContext component ctx =
        Except.error ("<" ++ component ++ " /> is missing a parent <Float /> component."))
    ∧ (∀ st : ArrowState, ctx = some st →
        useArrowContext component ctx = Except.ok st) := by
  constructor
  · intro h
    subst h
    rfl
  · intro st h
    subst h
    rfl

/-- **C9, witness.** Concrete lookups: the error message produced with no
enclosing Float, and the successful lookup inside one. -/
theorem c9_witness :
    useArrowContext "Float.Arrow" none =
      Except.error "<Float.Arrow /> is missing a parent <Float /> component."
    ∧ useArrowContext "Float.Arrow"
        (some ⟨⟨Side.bottom, some Align.start⟩, some 1, none⟩) =
      Except.ok ⟨⟨Side.bottom, some Align.start⟩, some 1, none⟩ :=
  ⟨(c9_arrow_context "Float.Arrow" none).1 rfl,
    (c9_arrow_context "Float.Arrow"
      (some ⟨⟨Side.bottom, some Align.start⟩, some 1, none⟩)).2 _ rfl⟩

end HeadlessuiFloat
